import Mathlib

/-!
Verification of the Polyair GPU line-drawing extension.

The repository holds two variants of the same extension:
the trimmed current variant (`src/polyair-extension.js`), embedded in
namespace `Polyair`, and the older variant (`src/unnamed/part_000`),
embedded in namespace `PolyairOld`.  Both variants share the same state
shape, so a single `PolyairState` structure serves both.

Modelling conventions:
- JavaScript numbers are modelled as rationals (all arithmetic the code
  performs on them — halving, clamping, division by 255 — is exact).
- Nullable WebGL handles (`glCanvas`, `gl`, `shaderProgram`,
  `programInfo`) are modelled as `Bool` presence flags, except
  `programInfo`, which carries the resolved attribute/uniform handles as
  an `Option`.  Handles returned by `getAttribLocation` /
  `getUniformLocation` are opaque; they are modelled as indices.
- Calls into the WebGL context are recorded as a `GLCmd` trace in the
  order the source issues them; a draw additionally appends a `LineDraw`
  record to the abstract `surface` (the drawing-buffer contents, empty =
  fully transparent).
- A JavaScript `TypeError` (property access on `null`) is modelled as
  `Except.error ()`; operations that cannot throw are plain functions.
- `resolutions[quality]` is a JavaScript property access on an object
  literal, so it traverses the prototype chain: besides the five own
  keys it also finds the own properties of `Object.prototype`
  (`constructor`, `toString`, `valueOf`, …), which are truthy, so for
  those names the `|| resolutions['1080p']` fallback is suppressed and
  the inherited member — not a resolution record — is stored.
  `JsResolutionValue` captures the possible values of
  `this.resolution`; reading `width`/`height` off an inherited member
  yields `undefined`, modelled as `none`.  Assigning `undefined` to
  `canvas.width`/`canvas.height` stores 0 (WebIDL number coercion); a
  GL call whose numeric arguments are `undefined`/NaN is recorded with
  a dedicated marker command; a draw whose resolution is an inherited
  member computes NaN for every vertex coordinate — a NaN-vertex line
  rasterizes no geometry, so the surface is recorded unchanged while
  the full command sequence (including both buffer deletions) is still
  issued.
- The outcome of shader compilation / program linking and of context
  creation is not decided by this code but by the host's WebGL
  implementation, so the constructor takes it as a parameter
  (`ShaderOutcome`, and Booleans for canvas / context availability).
-/

/-- Normalized RGBA pen color, each channel a rational (source: the
`penColor` object `\x7b r, g, b, a \x7d`). -/
structure Rgba where
  r : ℚ
  g : ℚ
  b : ℚ
  a : ℚ
deriving DecidableEq, Repr

/-- A resolution entry `\x7b width, height \x7d` in pixels. -/
structure Resolution where
  width : ℚ
  height : ℚ
deriving DecidableEq, Repr

/-- The own property names of `Object.prototype`, inherited by every
object literal and therefore visible to a bracket lookup on the
`resolutions` table. -/
def protoKeys : List String :=
  ["constructor", "hasOwnProperty", "isPrototypeOf",
   "propertyIsEnumerable", "toLocaleString", "toString", "valueOf",
   "__defineGetter__", "__defineSetter__", "__lookupGetter__",
   "__lookupSetter__", "__proto__"]

/-- A value the expression `resolutions[quality] ||
resolutions['1080p']` can leave in `this.resolution`: a genuine
resolution record, or — when `quality` names an `Object.prototype`
member — the inherited member itself (a function, or the prototype
object for `__proto__`), which is truthy and so suppresses the
fallback but has no `width`/`height` of its own. -/
inductive JsResolutionValue
  | res (r : Resolution)
  | inherited (name : String)
deriving DecidableEq, Repr

/-- Reading `.width` of the stored value: `undefined` (`none`) on an
inherited prototype member. -/
def JsResolutionValue.width : JsResolutionValue → Option ℚ
  | .res r => some r.width
  | .inherited _ => none

/-- Reading `.height` of the stored value: `undefined` (`none`) on an
inherited prototype member. -/
def JsResolutionValue.height : JsResolutionValue → Option ℚ
  | .res r => some r.height
  | .inherited _ => none

/-- Assigning a JS value to `canvas.width` / `canvas.height`: a number
is stored as-is; `undefined` coerces (via NaN) to 0. -/
def canvasAssign (v : Option ℚ) : ℚ :=
  v.getD 0

/-- The resolved attribute/uniform handles cached in `this.programInfo`.
The trimmed variant has no transform uniform, so `transformLoc` is
`none` there; the older variant resolves `u_transform` as well. -/
structure ProgramInfo where
  positionLoc : Nat
  colorLoc : Nat
  resolutionLoc : Nat
  transformLoc : Option Nat
deriving DecidableEq, Repr

/-- One line segment as it lands on the drawing buffer: the two device
pixel endpoints, the per-vertex color and the line width. -/
structure LineDraw where
  p1 : ℚ × ℚ
  p2 : ℚ × ℚ
  color : Rgba
  width : ℚ
deriving DecidableEq, Repr

/-- Calls issued against the WebGL context, in source order.  The last
three constructors mark calls whose numeric arguments are
`undefined`/NaN: `viewport(0,0,undefined,undefined)`,
`uniform2f(loc,undefined,undefined)` and an all-NaN vertex upload,
which arise after an inherited prototype member was stored as the
resolution. -/
inductive GLCmd
  | useProgram
  | uniform2f (loc : Nat) (w h : ℚ)
  | uniformMatrix3fv (loc : Nat) (entries : List ℚ)
  | createBuffer
  | bindBuffer
  | bufferData (entries : List ℚ)
  | enableVertexAttribArray (loc : Nat)
  | vertexAttribPointer (loc size : Nat)
  | lineWidth (w : ℚ)
  | drawArraysLines (first count : Nat)
  | deleteBuffer
  | viewport (x y w h : ℚ)
  | clearColor (r g b a : ℚ)
  | clear
  | viewportUndefined
  | uniform2fUndefined (loc : Nat)
  | bufferDataNaN
deriving DecidableEq, Repr

/-- How the fixed shader pair fares on this host: both stages compile
and the program links (`ok`), a stage fails to compile (`compileFail`),
or both compile but `linkProgram` leaves `LINK_STATUS` false
(`linkFail`). -/
inductive ShaderOutcome
  | compileFail
  | linkFail
  | ok
deriving DecidableEq, Repr

/-- The mutable instance state of the extension (`this.…` fields common
to both variants). `hasCanvas`, `hasGL`, `hasProgram` model the
nullability of `glCanvas`, `gl`, `shaderProgram`; `resolution` holds
whatever the lookup stored (a record, or an inherited prototype
member); `surface` is the drawing-buffer contents (list of drawn
lines, `[]` = fully transparent cleared). -/
structure PolyairState where
  hasCanvas : Bool
  canvasWidth : ℚ
  canvasHeight : ℚ
  hasGL : Bool
  hasProgram : Bool
  programInfo : Option ProgramInfo
  resolution : JsResolutionValue
  targetResolution : String
  gpuSprites : Finset String
  penColor : Rgba
  penWidth : ℚ
  surface : List LineDraw
deriving DecidableEq

namespace Polyair

/-- `initShaders` of the trimmed variant, parametrised by the host's
shader outcome.  Faithful to the source control flow: on a compile
failure the function returns before `createProgram`, so `shaderProgram`
stays null; on a link failure `shaderProgram` has already been assigned
(non-null) but the function returns before `programInfo` is built; only
on success is `programInfo` resolved (position, color attributes and the
resolution uniform — no transform uniform in this variant). -/
def initShaders (s : PolyairState) (o : ShaderOutcome) : PolyairState :=
  match o with
  | .compileFail => s
  | .linkFail => { s with hasProgram := true }
  | .ok => { s with hasProgram := true,
                    programInfo := some ⟨0, 1, 0, none⟩ }

/-- `initWebGL` of the trimmed variant.  The whole body is inside
`try/catch`: if `document.createElement` throws (`canvasOk = false`)
everything stays null; otherwise the canvas is created and sized to the
current resolution; if neither `webgl2` nor `webgl` context is available
(`ctxOk = false`) the function returns with `gl` null; otherwise
shaders are initialised, blending configured and the buffer cleared to
transparent. -/
def initWebGL (s : PolyairState) (canvasOk ctxOk : Bool)
    (o : ShaderOutcome) : PolyairState :=
  if !canvasOk then s
  else
    let s1 := { s with hasCanvas := true,
                       canvasWidth := canvasAssign s.resolution.width,
                       canvasHeight := canvasAssign s.resolution.height }
    if !ctxOk then s1
    else
      let s2 := initShaders { s1 with hasGL := true } o
      { s2 with surface := [] }

/-- The constructor of `PolyairExtension` (trimmed variant): default
resolution 854×480 (`480p`), empty sprite set, opaque white pen of
width 1, all WebGL handles null, then `initWebGL`. -/
def mkExtension (canvasOk ctxOk : Bool) (o : ShaderOutcome) :
    PolyairState :=
  initWebGL
    { hasCanvas := false
      canvasWidth := 0
      canvasHeight := 0
      hasGL := false
      hasProgram := false
      programInfo := none
      resolution := .res ⟨854, 480⟩
      targetResolution := "480p"
      gpuSprites := ∅
      penColor := ⟨1, 1, 1, 1⟩
      penWidth := 1
      surface := [] } canvasOk ctxOk o

/-- `enableGPURendering`: `this.gpuSprites.add(targetId)`. -/
def enableGPURendering (s : PolyairState) (targetId : String) :
    PolyairState :=
  { s with gpuSprites := insert targetId s.gpuSprites }

/-- `disableGPURendering`: `this.gpuSprites.delete(targetId)`. -/
def disableGPURendering (s : PolyairState) (targetId : String) :
    PolyairState :=
  { s with gpuSprites := s.gpuSprites.erase targetId }

/-- `isGPUEnabled`: `this.gpuSprites.has(util.target.id)`. -/
def isGPUEnabled (s : PolyairState) (targetId : String) : Bool :=
  decide (targetId ∈ s.gpuSprites)

/-- The `resolutions` preset table of `setResolution`. -/
def resolutions : List (String × Resolution) :=
  [("480p", ⟨854, 480⟩),
   ("720p", ⟨1280, 720⟩),
   ("1080p", ⟨1920, 1080⟩),
   ("2K", ⟨2560, 1440⟩),
   ("4K", ⟨3840, 2160⟩)]

/-- `resolutions[quality] || resolutions['1080p']`: an own key of the
table yields its preset entry; any other name yields `undefined` and
the `||` picks the 1080p entry — unless the name is an own property of
`Object.prototype`, in which case the bracket lookup finds the
inherited member, which is truthy, and the fallback never fires. -/
def lookupResolution (quality : String) : JsResolutionValue :=
  match resolutions.find? (fun e => e.1 == quality) with
  | some e => .res e.2
  | none =>
      if quality ∈ protoKeys then .inherited quality
      else .res ⟨1920, 1080⟩

/-- `setResolution` of the trimmed variant: store the raw lookup value
and the requested name; resize the canvas only `if (this.glCanvas)`
(reading `.width`/`.height` of an inherited member gives `undefined`,
which the canvas stores as 0); update the viewport and clear only `if
(this.gl)` (the viewport arguments are likewise `undefined` then).  It
never throws, hence a total function. -/
def setResolution (s : PolyairState) (quality : String) :
    PolyairState × List GLCmd :=
  let res := lookupResolution quality
  let s1 := { s with resolution := res, targetResolution := quality }
  let s2 := if s1.hasCanvas then
              { s1 with canvasWidth := canvasAssign res.width,
                        canvasHeight := canvasAssign res.height }
            else s1
  if s2.hasGL then
    ({ s2 with surface := [] },
     match res with
     | .res r =>
         [.viewport 0 0 r.width r.height, .clearColor 0 0 0 0, .clear]
     | .inherited _ =>
         [.viewportUndefined, .clearColor 0 0 0 0, .clear])
  else (s2, [])

/-- `getResolutionWidth`: `return this.resolution.width` —
`undefined` (`none`) when an inherited prototype member is stored. -/
def getResolutionWidth (s : PolyairState) : Option ℚ :=
  s.resolution.width

/-- `getResolutionHeight`: `return this.resolution.height` —
`undefined` (`none`) when an inherited prototype member is stored. -/
def getResolutionHeight (s : PolyairState) : Option ℚ :=
  s.resolution.height

/-- `Math.max(0, Math.min(255, x))`. -/
def clamp255 (x : ℚ) : ℚ :=
  max 0 (min 255 x)

/-- `setPenColor`: each channel clamped to [0,255] then divided by 255;
alpha forced to 1.0.  Inputs are the already-coerced numeric values. -/
def setPenColor (s : PolyairState) (rIn gIn bIn : ℚ) : PolyairState :=
  { s with penColor := ⟨clamp255 rIn / 255, clamp255 gIn / 255,
                        clamp255 bIn / 255, 1⟩ }

/-- `setPenWidth`: `Math.max(1, …)`. -/
def setPenWidth (s : PolyairState) (w : ℚ) : PolyairState :=
  { s with penWidth := max 1 w }

/-- `drawGPULine` of the trimmed variant.  Guard: `if (!this.gl ||
!this.shaderProgram) return;` — a silent no-op.  Past the guard the code
reads `this.programInfo.uniformLocations…`; when `programInfo` is null
(the link-failure state leaves `shaderProgram` non-null but
`programInfo` null) that property access throws a TypeError, modelled
as `Except.error ()`; the throw happens before any buffer is created or
any primitive drawn, so the surface is untouched.  On the successful
path the endpoints are mapped to device pixels `(width/2 + x,
height/2 − y)` and a single 2-vertex LINES draw is issued, after which
both transient buffers are deleted.  When the stored resolution is an
inherited prototype member, `this.resolution.width` reads `undefined`:
`centerX`/`centerY` and all four vertex components are NaN, the same
command sequence runs with `undefined`/NaN data (marker commands), the
NaN-vertex line rasterizes no geometry — the surface is unchanged —
and both buffers are still deleted. -/
def drawGPULine (s : PolyairState) (x1 y1 x2 y2 : ℚ) :
    Except Unit (PolyairState × List GLCmd) :=
  if !s.hasGL || !s.hasProgram then .ok (s, [])
  else
    match s.programInfo with
    | none => .error ()
    | some info =>
      match s.resolution with
      | .res r =>
        let centerX := r.width / 2
        let centerY := r.height / 2
        let vertices := [centerX + x1, centerY - y1,
                         centerX + x2, centerY - y2]
        let colors := [s.penColor.r, s.penColor.g, s.penColor.b,
                       s.penColor.a, s.penColor.r, s.penColor.g,
                       s.penColor.b, s.penColor.a]
        let line : LineDraw :=
          ⟨(centerX + x1, centerY - y1), (centerX + x2, centerY - y2),
           s.penColor, s.penWidth⟩
        .ok ({ s with surface := s.surface ++ [line] },
          [.useProgram,
           .uniform2f info.resolutionLoc r.width r.height,
           .createBuffer, .bindBuffer, .bufferData vertices,
           .enableVertexAttribArray info.positionLoc,
           .vertexAttribPointer info.positionLoc 2,
           .createBuffer, .bindBuffer, .bufferData colors,
           .enableVertexAttribArray info.colorLoc,
           .vertexAttribPointer info.colorLoc 4,
           .lineWidth s.penWidth,
           .drawArraysLines 0 2,
           .deleteBuffer, .deleteBuffer])
      | .inherited _ =>
        .ok (s,
          [.useProgram,
           .uniform2fUndefined info.resolutionLoc,
           .createBuffer, .bindBuffer, .bufferDataNaN,
           .enableVertexAttribArray info.positionLoc,
           .vertexAttribPointer info.positionLoc 2,
           .createBuffer, .bindBuffer,
           .bufferData [s.penColor.r, s.penColor.g, s.penColor.b,
             s.penColor.a, s.penColor.r, s.penColor.g, s.penColor.b,
             s.penColor.a],
           .enableVertexAttribArray info.colorLoc,
           .vertexAttribPointer info.colorLoc 4,
           .lineWidth s.penWidth,
           .drawArraysLines 0 2,
           .deleteBuffer, .deleteBuffer])

/-- `clearGPUCanvas`: no-op without a context, otherwise clear to
transparent black. -/
def clearGPUCanvas (s : PolyairState) : PolyairState × List GLCmd :=
  if !s.hasGL then (s, [])
  else ({ s with surface := [] }, [.clearColor 0 0 0 0, .clear])

/-- The trimmed variant's vertex stage: pixel-space position to clip
space by `clipSpace = (a_position / u_resolution) * 2.0 - 1.0;
clipSpace.y *= -1.0`. -/
def vertexShader (pos : ℚ × ℚ) (res : Resolution) : ℚ × ℚ :=
  (pos.1 / res.width * 2 - 1, -(pos.2 / res.height * 2 - 1))

end Polyair

/-- A 3×3 matrix, for the `u_transform` uniform of the older variant's
vertex stage. -/
structure Mat3 where
  m00 : ℚ
  m01 : ℚ
  m02 : ℚ
  m10 : ℚ
  m11 : ℚ
  m12 : ℚ
  m20 : ℚ
  m21 : ℚ
  m22 : ℚ
deriving DecidableEq, Repr

/-- Matrix–vector product `m * v` for a homogeneous 2D point. -/
def Mat3.apply (m : Mat3) (v : ℚ × ℚ × ℚ) : ℚ × ℚ × ℚ :=
  (m.m00 * v.1 + m.m01 * v.2.1 + m.m02 * v.2.2,
   m.m10 * v.1 + m.m11 * v.2.1 + m.m12 * v.2.2,
   m.m20 * v.1 + m.m21 * v.2.1 + m.m22 * v.2.2)

/-- The identity matrix the older variant always uploads as
`u_transform`. -/
def identityMat3 : Mat3 :=
  ⟨1, 0, 0, 0, 1, 0, 0, 0, 1⟩

namespace PolyairOld

/-- The older variant's vertex stage: `position = u_transform *
vec3(a_position, 1.0)` followed by the same pixel-to-clip conversion as
the trimmed variant. -/
def vertexShaderOld (t : Mat3) (pos : ℚ × ℚ) (res : Resolution) :
    ℚ × ℚ :=
  let p := t.apply (pos.1, pos.2, 1)
  (p.1 / res.width * 2 - 1, -(p.2.1 / res.height * 2 - 1))

/-- `initShaders` of the older variant.  Same control flow as the
trimmed one (including `shaderProgram` being assigned before the link
check), but on success it additionally resolves the `u_transform`
uniform into `programInfo`. -/
def initShaders (s : PolyairState) (o : ShaderOutcome) : PolyairState :=
  match o with
  | .compileFail => s
  | .linkFail => { s with hasProgram := true }
  | .ok => { s with hasProgram := true,
                    programInfo := some ⟨0, 1, 0, some 1⟩ }

/-- `initWebGL` of the older variant.  No `try/catch` here; the canvas
is always created (a `document.createElement` failure would abort the
whole constructor, which is not a reachable extension state), then the
same context-acquisition fallback, shader setup, blending and clear as
the trimmed variant. -/
def initWebGL (s : PolyairState) (ctxOk : Bool) (o : ShaderOutcome) :
    PolyairState :=
  let s1 := { s with hasCanvas := true,
                     canvasWidth := canvasAssign s.resolution.width,
                     canvasHeight := canvasAssign s.resolution.height }
  if !ctxOk then s1
  else
    let s2 := initShaders { s1 with hasGL := true } o
    { s2 with surface := [] }

/-- The constructor of the older variant: identical defaults to the
trimmed one. -/
def mkExtension (ctxOk : Bool) (o : ShaderOutcome) : PolyairState :=
  initWebGL
    { hasCanvas := false
      canvasWidth := 0
      canvasHeight := 0
      hasGL := false
      hasProgram := false
      programInfo := none
      resolution := .res ⟨854, 480⟩
      targetResolution := "480p"
      gpuSprites := ∅
      penColor := ⟨1, 1, 1, 1⟩
      penWidth := 1
      surface := [] } ctxOk o

/-- `enableGPURendering` of the older variant (identical set insertion;
the extra `console.log` has no state effect). -/
def enableGPURendering (s : PolyairState) (targetId : String) :
    PolyairState :=
  { s with gpuSprites := insert targetId s.gpuSprites }

/-- `disableGPURendering` of the older variant. -/
def disableGPURendering (s : PolyairState) (targetId : String) :
    PolyairState :=
  { s with gpuSprites := s.gpuSprites.erase targetId }

/-- `isGPUEnabled` of the older variant. -/
def isGPUEnabled (s : PolyairState) (targetId : String) : Bool :=
  decide (targetId ∈ s.gpuSprites)

/-- `setResolution` of the older variant.  It stores
`this.targetResolution = quality` and the looked-up resolution, then
unconditionally executes `this.glCanvas.width = …` and
`this.gl.viewport(…)` — with no null guards.  When `glCanvas` or `gl`
is null the corresponding property access throws a TypeError
(`Except.error ()`); only with both present does it resize, update the
viewport and clear, exactly like the trimmed variant (the same
inherited-prototype lookup values and `undefined` coercions apply). -/
def setResolution (s : PolyairState) (quality : String) :
    Except Unit (PolyairState × List GLCmd) :=
  let res := Polyair.lookupResolution quality
  let s1 := { s with targetResolution := quality, resolution := res }
  if !s1.hasCanvas then .error ()
  else
    let s2 := { s1 with canvasWidth := canvasAssign res.width,
                        canvasHeight := canvasAssign res.height }
    if !s2.hasGL then .error ()
    else
      .ok ({ s2 with surface := [] },
        match res with
        | .res r =>
            [.viewport 0 0 r.width r.height, .clearColor 0 0 0 0,
             .clear]
        | .inherited _ =>
            [.viewportUndefined, .clearColor 0 0 0 0, .clear])

/-- `setPenColor` of the older variant (identical to the trimmed). -/
def setPenColor (s : PolyairState) (rIn gIn bIn : ℚ) : PolyairState :=
  { s with penColor := ⟨Polyair.clamp255 rIn / 255,
                        Polyair.clamp255 gIn / 255,
                        Polyair.clamp255 bIn / 255, 1⟩ }

/-- `setPenWidth` of the older variant (identical to the trimmed). -/
def setPenWidth (s : PolyairState) (w : ℚ) : PolyairState :=
  { s with penWidth := max 1 w }

/-- `drawGPULine` of the older variant: same guard (the degraded branch
additionally logs, with no state effect), same TypeError on a null
`programInfo`, and the same draw sequence except that right after the
resolution uniform it uploads the identity matrix to `u_transform` via
`uniformMatrix3fv` (also in the NaN path of an inherited-prototype
resolution). -/
def drawGPULine (s : PolyairState) (x1 y1 x2 y2 : ℚ) :
    Except Unit (PolyairState × List GLCmd) :=
  if !s.hasGL || !s.hasProgram then .ok (s, [])
  else
    match s.programInfo with
    | none => .error ()
    | some info =>
      match s.resolution with
      | .res r =>
        let centerX := r.width / 2
        let centerY := r.height / 2
        let vertices := [centerX + x1, centerY - y1,
                         centerX + x2, centerY - y2]
        let colors := [s.penColor.r, s.penColor.g, s.penColor.b,
                       s.penColor.a, s.penColor.r, s.penColor.g,
                       s.penColor.b, s.penColor.a]
        let line : LineDraw :=
          ⟨(centerX + x1, centerY - y1), (centerX + x2, centerY - y2),
           s.penColor, s.penWidth⟩
        .ok ({ s with surface := s.surface ++ [line] },
          [.useProgram,
           .uniform2f info.resolutionLoc r.width r.height,
           .uniformMatrix3fv (info.transformLoc.getD 0)
             [1, 0, 0, 0, 1, 0, 0, 0, 1],
           .createBuffer, .bindBuffer, .bufferData vertices,
           .enableVertexAttribArray info.positionLoc,
           .vertexAttribPointer info.positionLoc 2,
           .createBuffer, .bindBuffer, .bufferData colors,
           .enableVertexAttribArray info.colorLoc,
           .vertexAttribPointer info.colorLoc 4,
           .lineWidth s.penWidth,
           .drawArraysLines 0 2,
           .deleteBuffer, .deleteBuffer])
      | .inherited _ =>
        .ok (s,
          [.useProgram,
           .uniform2fUndefined info.resolutionLoc,
           .uniformMatrix3fv (info.transformLoc.getD 0)
             [1, 0, 0, 0, 1, 0, 0, 0, 1],
           .createBuffer, .bindBuffer, .bufferDataNaN,
           .enableVertexAttribArray info.positionLoc,
           .vertexAttribPointer info.positionLoc 2,
           .createBuffer, .bindBuffer,
           .bufferData [s.penColor.r, s.penColor.g, s.penColor.b,
             s.penColor.a, s.penColor.r, s.penColor.g, s.penColor.b,
             s.penColor.a],
           .enableVertexAttribArray info.colorLoc,
           .vertexAttribPointer info.colorLoc 4,
           .lineWidth s.penWidth,
           .drawArraysLines 0 2,
           .deleteBuffer, .deleteBuffer])

/-- `clearGPUCanvas` of the older variant (identical to the trimmed). -/
def clearGPUCanvas (s : PolyairState) : PolyairState × List GLCmd :=
  if !s.hasGL then (s, [])
  else ({ s with surface := [] }, [.clearColor 0 0 0 0, .clear])

/-- `getResolutionWidth` of the older variant. -/
def getResolutionWidth (s : PolyairState) : Option ℚ :=
  s.resolution.width

/-- `getResolutionHeight` of the older variant. -/
def getResolutionHeight (s : PolyairState) : Option ℚ :=
  s.resolution.height

end PolyairOld

/-- Predicate picking out the transform-uniform upload the older
variant adds to each draw. -/
def GLCmd.isTransformUpload : GLCmd → Bool
  | .uniformMatrix3fv _ _ => true
  | _ => false

/-- Drop the (claimed inert) transform upload from a trace, to compare
the two variants' draw sequences. -/
def eraseTransform (tr : List GLCmd) : List GLCmd :=
  tr.filter (fun c => ! c.isTransformUpload)

/-- The exposed operations, for reasoning about arbitrary call
sequences against the trimmed variant. -/
inductive Op
  | enable (id : String)
  | disable (id : String)
  | setRes (quality : String)
  | penColor (r g b : ℚ)
  | penWidth (w : ℚ)
  | draw (x1 y1 x2 y2 : ℚ)
  | clearCanvas
deriving DecidableEq

/-- Apply one exposed operation to the trimmed variant's state.  A draw
that throws leaves the state as it was at the point of the throw (the
throw happens before any state mutation). -/
def applyOp (s : PolyairState) : Op → PolyairState
  | .enable i => Polyair.enableGPURendering s i
  | .disable i => Polyair.disableGPURendering s i
  | .setRes q => (Polyair.setResolution s q).1
  | .penColor r g b => Polyair.setPenColor s r g b
  | .penWidth w => Polyair.setPenWidth s w
  | .draw x1 y1 x2 y2 =>
      match Polyair.drawGPULine s x1 y1 x2 y2 with
      | .ok p => p.1
      | .error _ => s
  | .clearCanvas => (Polyair.clearGPUCanvas s).1

/-- Run a sequence of exposed operations. -/
def runOps (s : PolyairState) (ops : List Op) : PolyairState :=
  ops.foldl applyOp s

/-- Override the four pipeline-readiness fields of a state, leaving the
drawing/registry state alone — for stating that an operation neither
reads nor writes the context or shader handles. -/
def withPipeline (s : PolyairState) (hc hg hp : Bool)
    (pinfo : Option ProgramInfo) : PolyairState :=
  { s with hasCanvas := hc, hasGL := hg, hasProgram := hp,
           programInfo := pinfo }

/-! ## Helper lemmas -/

theorem setResolution_fst_resolution (s : PolyairState) (q : String) :
    (Polyair.setResolution s q).1.resolution = Polyair.lookupResolution q := by
  obtain ⟨f1, f2, f3, f4, f5, f6, f7, f8, f9, f10, f11, f12⟩ := s
  cases f1 <;> cases f4 <;> rfl

theorem setResolution_fst_gpuSprites (s : PolyairState) (q : String) :
    (Polyair.setResolution s q).1.gpuSprites = s.gpuSprites := by
  obtain ⟨f1, f2, f3, f4, f5, f6, f7, f8, f9, f10, f11, f12⟩ := s
  cases f1 <;> cases f4 <;> rfl

theorem drawGPULine_ok_gpuSprites (s : PolyairState) (x1 y1 x2 y2 : ℚ)
    (p : PolyairState × List GLCmd)
    (h : Polyair.drawGPULine s x1 y1 x2 y2 = .ok p) :
    p.1.gpuSprites = s.gpuSprites := by
  unfold Polyair.drawGPULine at h
  split at h
  · injection h with h1
    rw [← h1]
  · split at h
    · exact Except.noConfusion h
    · split at h
      · injection h with h1
        rw [← h1]
      · injection h with h1
        rw [← h1]

theorem mkExtension_gpuSprites (canvasOk ctxOk : Bool) (o : ShaderOutcome) :
    (Polyair.mkExtension canvasOk ctxOk o).gpuSprites = ∅ := by
  cases canvasOk <;> cases ctxOk <;> cases o <;> rfl

theorem clamp255_nonneg (x : ℚ) : 0 ≤ Polyair.clamp255 x :=
  le_max_left 0 _

theorem clamp255_le (x : ℚ) : Polyair.clamp255 x ≤ 255 :=
  max_le (by norm_num) (min_le_left 255 x)

theorem gpuSprites_applyOp_not_enable (s : PolyairState) (op : Op)
    (i : String) (hop : op ≠ Op.enable i) (h : i ∉ s.gpuSprites) :
    i ∉ (applyOp s op).gpuSprites := by
  cases op with
  | enable j =>
      simp only [applyOp, Polyair.enableGPURendering, Finset.mem_insert]
      rintro (rfl | hm)
      · exact hop rfl
      · exact h hm
  | disable j =>
      simp only [applyOp, Polyair.disableGPURendering]
      exact fun hm => h (Finset.mem_of_mem_erase hm)
  | setRes q => rw [applyOp, setResolution_fst_gpuSprites]; exact h
  | penColor r g b => exact h
  | penWidth w => exact h
  | draw x1 y1 x2 y2 =>
      simp only [applyOp]
      cases hd : Polyair.drawGPULine s x1 y1 x2 y2 with
      | error e => exact h
      | ok p => rw [drawGPULine_ok_gpuSprites s x1 y1 x2 y2 p hd]; exact h
  | clearCanvas =>
      obtain ⟨f1, f2, f3, f4, f5, f6, f7, f8, f9, f10, f11, f12⟩ := s
      cases f4 <;> exact h

theorem runOps_not_enabled (ops : List Op) :
    ∀ (s : PolyairState) (i : String), Op.enable i ∉ ops →
      i ∉ s.gpuSprites → i ∉ (runOps s ops).gpuSprites := by
  induction ops with
  | nil => exact fun s i _ h => h
  | cons op rest ih =>
      intro s i hnotin h
      have hop : op ≠ Op.enable i :=
        fun he => hnotin (he ▸ List.mem_cons_self op rest)
      exact ih (applyOp s op) i
        (fun hm => hnotin (List.mem_cons_of_mem op hm))
        (gpuSprites_applyOp_not_enable s op i hop h)

/-! ## Claims -/

/-- Claim C1 (the code contradicts it on the link-failure path): the
claim says a compile or link failure leaves the shader program null and
every subsequent `drawGPULine` is a non-throwing no-op.  In the state
where both stages compiled but `linkProgram` failed, `shaderProgram` is
non-null (it was assigned before the link check), `drawGPULine` passes
its `!this.gl || !this.shaderProgram` guard and throws a TypeError on
the null `programInfo`.  The compile-failure path does behave as
claimed (program null, draw a surface-preserving no-op). -/
theorem C1_linkFailure_draw_throws :
    (Polyair.mkExtension true true .linkFail).hasProgram = true
    ∧ Polyair.drawGPULine (Polyair.mkExtension true true .linkFail)
        0 0 100 100 = .error ()
    ∧ Polyair.drawGPULine (Polyair.mkExtension true true .compileFail)
        0 0 100 100
        = .ok (Polyair.mkExtension true true .compileFail, []) :=
  ⟨rfl, rfl, rfl⟩

/-- Claim C2, counterexample: in the older variant, with the canvas
created but no WebGL context obtainable (a reachable constructor
outcome), `setResolution('720p')` throws a TypeError at the unguarded
`this.gl.viewport` call instead of degrading to a no-op. -/
theorem C2_counterexample :
    PolyairOld.setResolution (PolyairOld.mkExtension false .ok) "720p"
      = .error () :=
  rfl

/-- Claim C2 as amended: in the trimmed variant, `setResolution`
without a graphics context never raises (it is a total function),
still stores the raw lookup value (the preset pair, the 1080p pair on
a plain miss, or the inherited `Object.prototype` member for its
property names — see C5) and the requested name, issues no context
command (no viewport, no clear) and leaves the surface untouched; the
canvas resize however is only skipped when the canvas is itself
absent — with a canvas present and no context the canvas is still
resized to the looked-up dimensions (0 for an inherited member, whose
`width`/`height` read `undefined`).  In the older variant the same
call throws. -/
theorem C2_noContext_setResolution :
    ∀ (s : PolyairState) (q : String), s.hasGL = false →
      (Polyair.setResolution s q).1.resolution = Polyair.lookupResolution q
      ∧ (Polyair.setResolution s q).1.targetResolution = q
      ∧ (Polyair.setResolution s q).2 = []
      ∧ (Polyair.setResolution s q).1.surface = s.surface
      ∧ (s.hasCanvas = true →
          (Polyair.setResolution s q).1.canvasWidth
            = canvasAssign (Polyair.lookupResolution q).width
          ∧ (Polyair.setResolution s q).1.canvasHeight
            = canvasAssign (Polyair.lookupResolution q).height)
      ∧ (s.hasCanvas = false →
          (Polyair.setResolution s q).1.canvasWidth = s.canvasWidth
          ∧ (Polyair.setResolution s q).1.canvasHeight = s.canvasHeight)
      ∧ PolyairOld.setResolution s q = .error () := by
  intro s q hg
  obtain ⟨f1, f2, f3, f4, f5, f6, f7, f8, f9, f10, f11, f12⟩ := s
  cases f4 with
  | true => exact absurd hg (by simp)
  | false =>
      cases f1 with
      | false =>
          exact ⟨rfl, rfl, rfl, rfl,
            fun hcontra => absurd hcontra (by simp),
            fun _ => ⟨rfl, rfl⟩, rfl⟩
      | true =>
          exact ⟨rfl, rfl, rfl, rfl, fun _ => ⟨rfl, rfl⟩,
            fun hcontra => absurd hcontra (by simp), rfl⟩

theorem C2_noContext_setResolution_witness :
    (Polyair.mkExtension true false .ok).hasGL = false
    ∧ (Polyair.mkExtension true false .ok).hasCanvas = true
    ∧ ((Polyair.setResolution (Polyair.mkExtension true false .ok)
          "720p").1.resolution = Polyair.lookupResolution "720p"
        ∧ (Polyair.setResolution (Polyair.mkExtension true false .ok)
            "720p").1.targetResolution = "720p"
        ∧ (Polyair.setResolution (Polyair.mkExtension true false .ok)
            "720p").2 = []
        ∧ (Polyair.setResolution (Polyair.mkExtension true false .ok)
            "720p").1.surface
            = (Polyair.mkExtension true false .ok).surface
        ∧ ((Polyair.mkExtension true false .ok).hasCanvas = true →
            (Polyair.setResolution (Polyair.mkExtension true false .ok)
              "720p").1.canvasWidth
              = canvasAssign (Polyair.lookupResolution "720p").width
            ∧ (Polyair.setResolution (Polyair.mkExtension true false .ok)
                "720p").1.canvasHeight
                = canvasAssign (Polyair.lookupResolution "720p").height)
        ∧ ((Polyair.mkExtension true false .ok).hasCanvas = false →
            (Polyair.setResolution (Polyair.mkExtension true false .ok)
              "720p").1.canvasWidth
              = (Polyair.mkExtension true false .ok).canvasWidth
            ∧ (Polyair.setResolution (Polyair.mkExtension true false .ok)
                "720p").1.canvasHeight
                = (Polyair.mkExtension true false .ok).canvasHeight)
        ∧ PolyairOld.setResolution (Polyair.mkExtension true false .ok)
            "720p" = .error ()) :=
  ⟨rfl, rfl,
   C2_noContext_setResolution (Polyair.mkExtension true false .ok)
     "720p" rfl⟩

/-- Claim C3, counterexample: the two variants are not observationally
equivalent on every input sequence.  Constructing either variant with a
canvas but no obtainable WebGL context yields the very same state, yet
`setResolution('4K')` then throws in the older variant while the
trimmed variant returns normally with the dimensions updated. -/
theorem C3_counterexample :
    PolyairOld.mkExtension false .ok = Polyair.mkExtension true false .ok
    ∧ PolyairOld.setResolution (PolyairOld.mkExtension false .ok) "4K"
        = .error ()
    ∧ (Polyair.setResolution (Polyair.mkExtension true false .ok)
        "4K").1.resolution = JsResolutionValue.res ⟨3840, 2160⟩ :=
  ⟨by decide, rfl, by decide⟩

/-- Claim C3 as amended: with both canvas and context present the two
variants' `setResolution` agree exactly; `drawGPULine` agrees in every
state up to the older variant's transform-uniform upload (erasing that
one command from the older trace gives the trimmed result, states
included); the identity transform is functionally inert in the vertex
stage; the remaining exposed operations are identical; and the
constructors agree on everything except the cached handle record (the
older variant additionally caches the transform uniform handle).  The
divergence is confined to the Degraded no-context state, where the
older `setResolution` throws (see the counterexample). -/
theorem C3_ready_equivalence :
    (∀ (s : PolyairState) (q : String), s.hasCanvas = true →
        s.hasGL = true →
        PolyairOld.setResolution s q = .ok (Polyair.setResolution s q))
    ∧ (∀ (s : PolyairState) (x1 y1 x2 y2 : ℚ),
        (PolyairOld.drawGPULine s x1 y1 x2 y2).map
            (fun p => (p.1, eraseTransform p.2))
          = Polyair.drawGPULine s x1 y1 x2 y2)
    ∧ (∀ (pos : ℚ × ℚ) (res : Resolution),
        PolyairOld.vertexShaderOld identityMat3 pos res
          = Polyair.vertexShader pos res)
    ∧ (∀ (s : PolyairState) (i : String),
        PolyairOld.enableGPURendering s i
          = Polyair.enableGPURendering s i)
    ∧ (∀ (s : PolyairState) (i : String),
        PolyairOld.disableGPURendering s i
          = Polyair.disableGPURendering s i)
    ∧ (∀ (s : PolyairState) (i : String),
        PolyairOld.isGPUEnabled s i = Polyair.isGPUEnabled s i)
    ∧ (∀ (s : PolyairState) (r g b : ℚ),
        PolyairOld.setPenColor s r g b = Polyair.setPenColor s r g b)
    ∧ (∀ (s : PolyairState) (w : ℚ),
        PolyairOld.setPenWidth s w = Polyair.setPenWidth s w)
    ∧ (∀ s : PolyairState,
        PolyairOld.clearGPUCanvas s = Polyair.clearGPUCanvas s)
    ∧ (∀ s : PolyairState,
        PolyairOld.getResolutionWidth s = Polyair.getResolutionWidth s
        ∧ PolyairOld.getResolutionHeight s
            = Polyair.getResolutionHeight s)
    ∧ (∀ (ctxOk : Bool) (o : ShaderOutcome),
        { PolyairOld.mkExtension ctxOk o with programInfo := none }
          = { Polyair.mkExtension true ctxOk o with programInfo := none }
        ∧ (PolyairOld.mkExtension ctxOk o).programInfo.isSome
            = (Polyair.mkExtension true ctxOk o).programInfo.isSome) := by
  refine ⟨?_, ?_, ?_, fun s i => rfl, fun s i => rfl, fun s i => rfl,
    fun s r g b => rfl, fun s w => rfl, fun s => rfl,
    fun s => ⟨rfl, rfl⟩, ?_⟩
  · intro s q hc hg
    obtain ⟨f1, f2, f3, f4, f5, f6, f7, f8, f9, f10, f11, f12⟩ := s
    simp only at hc hg
    subst hc hg
    rfl
  · intro s x1 y1 x2 y2
    obtain ⟨f1, f2, f3, f4, f5, f6, f7, f8, f9, f10, f11, f12⟩ := s
    cases f4 <;> cases f5 <;>
      first
        | rfl
        | (cases f6 <;> first | rfl | (cases f7 <;> rfl))
  · intro pos res
    simp only [PolyairOld.vertexShaderOld, Polyair.vertexShader,
      Mat3.apply, identityMat3]
    norm_num
  · intro ctxOk o
    cases ctxOk <;> cases o <;> exact ⟨rfl, rfl⟩

theorem C3_ready_equivalence_witness :
    (Polyair.mkExtension true true .ok).hasCanvas = true
    ∧ (Polyair.mkExtension true true .ok).hasGL = true
    ∧ PolyairOld.setResolution (Polyair.mkExtension true true .ok)
        "720p"
        = .ok (Polyair.setResolution (Polyair.mkExtension true true .ok)
            "720p") :=
  ⟨rfl, rfl, C3_ready_equivalence.1 (Polyair.mkExtension true true .ok)
    "720p" rfl rfl⟩

/-- Claim C4: with the pipeline ready and a genuine resolution record
stored, `drawGPULine` maps each endpoint `(x, y)` to device pixels
`(width/2 + x, height/2 − y)` and issues exactly the recorded command
sequence — one 2-vertex LINES draw using the stored pen color and
width, with both transient buffers created, uploaded, and deleted at
the end; the drawn segment lands on the surface with those device
endpoints.  The second conjunct is the concrete 4K scenario: after
`setResolution('4K')`, `drawGPULine(0,0,100,100)` draws from
(1920,1080) to (2020,980) with the default opaque-white pen of width 1
and releases both buffers. -/
theorem C4_draw_centerOrigin :
    (∀ (s : PolyairState) (info : ProgramInfo) (r : Resolution)
      (x1 y1 x2 y2 : ℚ),
      s.hasGL = true → s.hasProgram = true →
      s.programInfo = some info →
      s.resolution = JsResolutionValue.res r →
      Polyair.drawGPULine s x1 y1 x2 y2 = .ok
        ({ s with surface := s.surface ++
            [⟨(r.width / 2 + x1, r.height / 2 - y1),
              (r.width / 2 + x2, r.height / 2 - y2),
              s.penColor, s.penWidth⟩] },
         [.useProgram,
          .uniform2f info.resolutionLoc r.width r.height,
          .createBuffer, .bindBuffer,
          .bufferData [r.width / 2 + x1, r.height / 2 - y1,
            r.width / 2 + x2, r.height / 2 - y2],
          .enableVertexAttribArray info.positionLoc,
          .vertexAttribPointer info.positionLoc 2,
          .createBuffer, .bindBuffer,
          .bufferData [s.penColor.r, s.penColor.g, s.penColor.b,
            s.penColor.a, s.penColor.r, s.penColor.g, s.penColor.b,
            s.penColor.a],
          .enableVertexAttribArray info.colorLoc,
          .vertexAttribPointer info.colorLoc 4,
          .lineWidth s.penWidth,
          .drawArraysLines 0 2,
          .deleteBuffer, .deleteBuffer]))
    ∧ Polyair.drawGPULine
        (Polyair.setResolution (Polyair.mkExtension true true .ok)
          "4K").1 0 0 100 100 = .ok
        ({ hasCanvas := true, canvasWidth := 3840, canvasHeight := 2160,
           hasGL := true, hasProgram := true,
           programInfo := some ⟨0, 1, 0, none⟩,
           resolution := .res ⟨3840, 2160⟩, targetResolution := "4K",
           gpuSprites := ∅, penColor := ⟨1, 1, 1, 1⟩, penWidth := 1,
           surface := [⟨(1920, 1080), (2020, 980), ⟨1, 1, 1, 1⟩, 1⟩] },
         [.useProgram, .uniform2f 0 3840 2160,
          .createBuffer, .bindBuffer,
          .bufferData [1920, 1080, 2020, 980],
          .enableVertexAttribArray 0, .vertexAttribPointer 0 2,
          .createBuffer, .bindBuffer,
          .bufferData [1, 1, 1, 1, 1, 1, 1, 1],
          .enableVertexAttribArray 1, .vertexAttribPointer 1 4,
          .lineWidth 1, .drawArraysLines 0 2,
          .deleteBuffer, .deleteBuffer]) := by
  have hgen : ∀ (s : PolyairState) (info : ProgramInfo) (r : Resolution)
      (x1 y1 x2 y2 : ℚ), s.hasGL = true → s.hasProgram = true →
      s.programInfo = some info →
      s.resolution = JsResolutionValue.res r →
      Polyair.drawGPULine s x1 y1 x2 y2 = .ok
        ({ s with surface := s.surface ++
            [⟨(r.width / 2 + x1, r.height / 2 - y1),
              (r.width / 2 + x2, r.height / 2 - y2),
              s.penColor, s.penWidth⟩] },
         [.useProgram,
          .uniform2f info.resolutionLoc r.width r.height,
          .createBuffer, .bindBuffer,
          .bufferData [r.width / 2 + x1, r.height / 2 - y1,
            r.width / 2 + x2, r.height / 2 - y2],
          .enableVertexAttribArray info.positionLoc,
          .vertexAttribPointer info.positionLoc 2,
          .createBuffer, .bindBuffer,
          .bufferData [s.penColor.r, s.penColor.g, s.penColor.b,
            s.penColor.a, s.penColor.r, s.penColor.g, s.penColor.b,
            s.penColor.a],
          .enableVertexAttribArray info.colorLoc,
          .vertexAttribPointer info.colorLoc 4,
          .lineWidth s.penWidth,
          .drawArraysLines 0 2,
          .deleteBuffer, .deleteBuffer]) := by
    intro s info r x1 y1 x2 y2 hg hp hinfo hres
    obtain ⟨f1, f2, f3, f4, f5, f6, f7, f8, f9, f10, f11, f12⟩ := s
    simp only at hg hp hinfo hres
    subst hg hp hinfo hres
    rfl
  refine ⟨hgen, ?_⟩
  have hs : (Polyair.setResolution (Polyair.mkExtension true true .ok)
      "4K").1 = ⟨true, 3840, 2160, true, true, some ⟨0, 1, 0, none⟩,
      .res ⟨3840, 2160⟩, "4K", ∅, ⟨1, 1, 1, 1⟩, 1, []⟩ := by decide
  rw [hs,
    hgen _ ⟨0, 1, 0, none⟩ ⟨3840, 2160⟩ 0 0 100 100 rfl rfl rfl rfl]
  norm_num

theorem C4_draw_centerOrigin_witness :
    (Polyair.mkExtension true true .ok).hasGL = true
    ∧ (Polyair.mkExtension true true .ok).hasProgram = true
    ∧ (Polyair.mkExtension true true .ok).programInfo
        = some ⟨0, 1, 0, none⟩
    ∧ (Polyair.mkExtension true true .ok).resolution
        = JsResolutionValue.res ⟨854, 480⟩
    ∧ Polyair.drawGPULine (Polyair.mkExtension true true .ok)
        (-7) 5 3 (-2) = .ok
        ({ Polyair.mkExtension true true .ok with surface :=
            (Polyair.mkExtension true true .ok).surface ++
              [⟨(854 / 2 + (-7), 480 / 2 - 5), (854 / 2 + 3,
                480 / 2 - (-2)), ⟨1, 1, 1, 1⟩, 1⟩] },
         [.useProgram, .uniform2f 0 854 480,
          .createBuffer, .bindBuffer,
          .bufferData [854 / 2 + (-7), 480 / 2 - 5, 854 / 2 + 3,
            480 / 2 - (-2)],
          .enableVertexAttribArray 0, .vertexAttribPointer 0 2,
          .createBuffer, .bindBuffer,
          .bufferData [1, 1, 1, 1, 1, 1, 1, 1],
          .enableVertexAttribArray 1, .vertexAttribPointer 1 4,
          .lineWidth 1, .drawArraysLines 0 2,
          .deleteBuffer, .deleteBuffer]) :=
  ⟨rfl, rfl, rfl, rfl,
    C4_draw_centerOrigin.1 (Polyair.mkExtension true true .ok)
      ⟨0, 1, 0, none⟩ ⟨854, 480⟩ (-7) 5 3 (-2) rfl rfl rfl rfl⟩

/-- Claim C5 (the code contradicts its fallback clause): the claim says
any name outside the preset table yields the 1080p entry 1920×1080 —
the evident intent of `resolutions[quality] || resolutions['1080p']`,
and true for a plain miss.  But for the own property names of
`Object.prototype` the bracket lookup returns the inherited member,
which is truthy, so the `||` fallback never fires: after
`setResolution('constructor')` the stored resolution is the inherited
`constructor` function, not the 1080p pair, and the reported width is
`undefined`.  The five preset rows and the 854×480 construction
default do hold exactly as claimed. -/
theorem C5_preset_table :
    Polyair.lookupResolution "constructor"
        = JsResolutionValue.inherited "constructor"
    ∧ (Polyair.setResolution (Polyair.mkExtension true true .ok)
        "constructor").1.resolution
        ≠ JsResolutionValue.res ⟨1920, 1080⟩
    ∧ Polyair.getResolutionWidth
        (Polyair.setResolution (Polyair.mkExtension true true .ok)
          "constructor").1 = none
    ∧ (∀ (p : String) (r : Resolution), (p, r) ∈ Polyair.resolutions →
        ∀ s : PolyairState, (Polyair.setResolution s p).1.resolution
          = JsResolutionValue.res r)
    ∧ (∀ q : String, q ∉ Polyair.resolutions.map Prod.fst →
        q ∉ protoKeys → ∀ s : PolyairState,
        (Polyair.setResolution s q).1.resolution
          = JsResolutionValue.res ⟨1920, 1080⟩)
    ∧ (∀ (canvasOk ctxOk : Bool) (o : ShaderOutcome),
        (Polyair.mkExtension canvasOk ctxOk o).resolution
          = JsResolutionValue.res ⟨854, 480⟩) := by
  refine ⟨by decide, by decide, by decide, ?_, ?_, ?_⟩
  · intro p r hmem s
    rw [setResolution_fst_resolution]
    simp only [Polyair.resolutions, List.mem_cons, List.not_mem_nil,
      or_false, Prod.mk.injEq] at hmem
    rcases hmem with ⟨hp, hr⟩ | ⟨hp, hr⟩ | ⟨hp, hr⟩ | ⟨hp, hr⟩ |
      ⟨hp, hr⟩ <;> subst hp <;> subst hr <;> decide
  · intro q hq hproto s
    rw [setResolution_fst_resolution]
    simp only [Polyair.resolutions, List.map_cons, List.map_nil,
      List.mem_cons, List.not_mem_nil, or_false] at hq
    push_neg at hq
    obtain ⟨h1, h2, h3, h4, h5⟩ := hq
    have e1 : ("480p" == q) = false := beq_eq_false_iff_ne.mpr (Ne.symm h1)
    have e2 : ("720p" == q) = false := beq_eq_false_iff_ne.mpr (Ne.symm h2)
    have e3 : ("1080p" == q) = false := beq_eq_false_iff_ne.mpr (Ne.symm h3)
    have e4 : ("2K" == q) = false := beq_eq_false_iff_ne.mpr (Ne.symm h4)
    have e5 : ("4K" == q) = false := beq_eq_false_iff_ne.mpr (Ne.symm h5)
    simp [Polyair.lookupResolution, Polyair.resolutions, List.find?,
      e1, e2, e3, e4, e5, hproto]
  · intro canvasOk ctxOk o
    cases canvasOk <;> cases ctxOk <;> cases o <;> rfl

theorem C5_preset_table_witness :
    (("4K", (⟨3840, 2160⟩ : Resolution)) ∈ Polyair.resolutions
      ∧ (Polyair.setResolution (Polyair.mkExtension true true .ok)
          "4K").1.resolution = JsResolutionValue.res ⟨3840, 2160⟩)
    ∧ ("cinema" ∉ Polyair.resolutions.map Prod.fst
      ∧ "cinema" ∉ protoKeys
      ∧ (Polyair.setResolution (Polyair.mkExtension true true .ok)
          "cinema").1.resolution
          = JsResolutionValue.res ⟨1920, 1080⟩) :=
  ⟨⟨by decide,
    C5_preset_table.2.2.2.1 "4K" ⟨3840, 2160⟩ (by decide)
      (Polyair.mkExtension true true .ok)⟩,
   ⟨by decide, by decide,
    C5_preset_table.2.2.2.2.1 "cinema" (by decide) (by decide)
      (Polyair.mkExtension true true .ok)⟩⟩

/-- Claim C6: for all numeric r, g, b (negative and >255 included),
`setPenColor` stores per channel exactly clamp(input, 0, 255)/255,
each resulting channel lies in [0, 1], and the stored alpha is
exactly 1. -/
theorem C6_setPenColor_clamps :
    ∀ (s : PolyairState) (r g b : ℚ),
      (Polyair.setPenColor s r g b).penColor.r
          = Polyair.clamp255 r / 255
      ∧ (Polyair.setPenColor s r g b).penColor.g
          = Polyair.clamp255 g / 255
      ∧ (Polyair.setPenColor s r g b).penColor.b
          = Polyair.clamp255 b / 255
      ∧ 0 ≤ (Polyair.setPenColor s r g b).penColor.r
      ∧ (Polyair.setPenColor s r g b).penColor.r ≤ 1
      ∧ 0 ≤ (Polyair.setPenColor s r g b).penColor.g
      ∧ (Polyair.setPenColor s r g b).penColor.g ≤ 1
      ∧ 0 ≤ (Polyair.setPenColor s r g b).penColor.b
      ∧ (Polyair.setPenColor s r g b).penColor.b ≤ 1
      ∧ (Polyair.setPenColor s r g b).penColor.a = 1 := by
  intro s r g b
  have hlo : ∀ x : ℚ, 0 ≤ Polyair.clamp255 x / 255 :=
    fun x => div_nonneg (clamp255_nonneg x) (by norm_num)
  have hhi : ∀ x : ℚ, Polyair.clamp255 x / 255 ≤ 1 :=
    fun x => (div_le_one (by norm_num)).mpr (clamp255_le x)
  exact ⟨rfl, rfl, rfl, hlo r, hhi r, hlo g, hhi g, hlo b, hhi b, rfl⟩

/-- Claim C7: `setPenWidth` stores exactly 1 for any input below 1
(negative included) and stores the input unchanged for any
input ≥ 1. -/
theorem C7_setPenWidth_clamps :
    ∀ (s : PolyairState) (w : ℚ),
      (w < 1 → (Polyair.setPenWidth s w).penWidth = 1)
      ∧ (1 ≤ w → (Polyair.setPenWidth s w).penWidth = w) := by
  intro s w
  constructor
  · intro h
    simp only [Polyair.setPenWidth]
    exact max_eq_left h.le
  · intro h
    simp only [Polyair.setPenWidth]
    exact max_eq_right h

theorem C7_setPenWidth_clamps_witness :
    ((-3 : ℚ) < 1
      ∧ (Polyair.setPenWidth (Polyair.mkExtension true true .ok)
          (-3)).penWidth = 1)
    ∧ ((1 : ℚ) ≤ 5
      ∧ (Polyair.setPenWidth (Polyair.mkExtension true true .ok)
          5).penWidth = 5) :=
  ⟨⟨by norm_num,
    (C7_setPenWidth_clamps (Polyair.mkExtension true true .ok) (-3)).1
      (by norm_num)⟩,
   ⟨by norm_num,
    (C7_setPenWidth_clamps (Polyair.mkExtension true true .ok) 5).2
      (by norm_num)⟩⟩

/-- Claim C8: the GPU flag registry has set semantics: `isGPUEnabled`
is true right after `enableGPURendering` of the same id, false after a
subsequent `disableGPURendering`, false for an id that no operation
sequence from construction ever enabled, and repeated enables are
idempotent (the whole state is unchanged after the first). -/
theorem C8_flag_registry :
    (∀ (s : PolyairState) (i : String),
      Polyair.isGPUEnabled (Polyair.enableGPURendering s i) i = true)
    ∧ (∀ (s : PolyairState) (i : String),
      Polyair.isGPUEnabled
        (Polyair.disableGPURendering (Polyair.enableGPURendering s i) i)
        i = false)
    ∧ (∀ (canvasOk ctxOk : Bool) (o : ShaderOutcome) (ops : List Op)
        (i : String), Op.enable i ∉ ops →
      Polyair.isGPUEnabled (runOps (Polyair.mkExtension canvasOk ctxOk o)
        ops) i = false)
    ∧ (∀ (s : PolyairState) (i : String),
      Polyair.enableGPURendering (Polyair.enableGPURendering s i) i
        = Polyair.enableGPURendering s i) := by
  refine ⟨?_, ?_, ?_, ?_⟩
  · intro s i
    simp [Polyair.isGPUEnabled, Polyair.enableGPURendering]
  · intro s i
    simp [Polyair.isGPUEnabled, Polyair.enableGPURendering,
      Polyair.disableGPURendering]
  · intro canvasOk ctxOk o ops i hnotin
    have h0 : i ∉ (Polyair.mkExtension canvasOk ctxOk o).gpuSprites := by
      rw [mkExtension_gpuSprites]
      exact Finset.not_mem_empty i
    simpa [Polyair.isGPUEnabled] using
      runOps_not_enabled ops (Polyair.mkExtension canvasOk ctxOk o) i
        hnotin h0
  · intro s i
    simp [Polyair.enableGPURendering, Finset.insert_idem]

theorem C8_flag_registry_witness :
    Op.enable "B" ∉ [Op.enable "A", Op.disable "B",
      Op.setRes "720p", Op.draw 0 0 100 100]
    ∧ Polyair.isGPUEnabled
        (runOps (Polyair.mkExtension true true .ok)
          [Op.enable "A", Op.disable "B", Op.setRes "720p",
           Op.draw 0 0 100 100]) "B" = false :=
  ⟨by decide,
   C8_flag_registry.2.2.1 true true .ok
     [Op.enable "A", Op.disable "B", Op.setRes "720p",
      Op.draw 0 0 100 100] "B" (by decide)⟩

/-- Claim C9: `setResolution` is idempotent under repetition with the
same preset name — the second application reproduces exactly the state
of the first — and, whenever a graphics context exists, the surface is
fully transparent (cleared) after each of the two applications. -/
theorem C9_setResolution_idempotent :
    ∀ (s : PolyairState) (q : String),
      (Polyair.setResolution (Polyair.setResolution s q).1 q).1
          = (Polyair.setResolution s q).1
      ∧ (s.hasGL = true →
          (Polyair.setResolution s q).1.surface = []
          ∧ (Polyair.setResolution
              (Polyair.setResolution s q).1 q).1.surface = []) := by
  intro s q
  obtain ⟨f1, f2, f3, f4, f5, f6, f7, f8, f9, f10, f11, f12⟩ := s
  cases f4 with
  | false =>
      cases f1 <;> exact ⟨rfl, fun hg => absurd hg Bool.false_ne_true⟩
  | true =>
      cases f1 <;> exact ⟨rfl, fun hg => ⟨rfl, rfl⟩⟩

theorem C9_setResolution_idempotent_witness :
    (Polyair.mkExtension true true .ok).hasGL = true
    ∧ ((Polyair.setResolution (Polyair.mkExtension true true .ok)
        "2K").1.surface = []
      ∧ (Polyair.setResolution
          (Polyair.setResolution (Polyair.mkExtension true true .ok)
            "2K").1 "2K").1.surface = []) :=
  ⟨rfl, (C9_setResolution_idempotent (Polyair.mkExtension true true .ok)
    "2K").2 rfl⟩

/-- Claim C10: `setPenColor`, `setPenWidth`, `enableGPURendering`,
`disableGPURendering`, `isGPUEnabled`, `getResolutionWidth` and
`getResolutionHeight` never consult the context or shader fields:
overriding `glCanvas`/`gl`/`shaderProgram`/`programInfo` arbitrarily
(any Ready or Degraded combination) commutes with each operation and
changes no return value; all seven are total, so none can throw. -/
theorem C10_ops_context_free :
    ∀ (s : PolyairState) (hc hg hp : Bool) (pinfo : Option ProgramInfo)
      (r g b w : ℚ) (i : String),
      Polyair.setPenColor (withPipeline s hc hg hp pinfo) r g b
        = withPipeline (Polyair.setPenColor s r g b) hc hg hp pinfo
      ∧ Polyair.setPenWidth (withPipeline s hc hg hp pinfo) w
        = withPipeline (Polyair.setPenWidth s w) hc hg hp pinfo
      ∧ Polyair.enableGPURendering (withPipeline s hc hg hp pinfo) i
        = withPipeline (Polyair.enableGPURendering s i) hc hg hp pinfo
      ∧ Polyair.disableGPURendering (withPipeline s hc hg hp pinfo) i
        = withPipeline (Polyair.disableGPURendering s i) hc hg hp pinfo
      ∧ Polyair.isGPUEnabled (withPipeline s hc hg hp pinfo) i
        = Polyair.isGPUEnabled s i
      ∧ Polyair.getResolutionWidth (withPipeline s hc hg hp pinfo)
        = Polyair.getResolutionWidth s
      ∧ Polyair.getResolutionHeight (withPipeline s hc hg hp pinfo)
        = Polyair.getResolutionHeight s :=
  fun _ _ _ _ _ _ _ _ _ _ =>
    ⟨rfl, rfl, rfl, rfl, rfl, rfl, rfl⟩
